import Mathlib

/-
Verification of the edge surveillance pipeline (drone modules).

Each Python module is shallowly embedded: pure post-processing functions
become Lean functions over exact rational arithmetic, queue/retry loops
become explicit folds with fuel, and Python attribute lookup is modelled
where it decides behaviour.  Float arithmetic in the source is modelled
over the rationals; comparisons of the form sqrt x < c are rendered in the
equivalent squared form (sqrt is monotone, and the degenerate 0-diagonal
cases where NumPy yields inf or nan also compare false, matching the
squared form).
-/

/- Bounding boxes, from the bbox lists [x1, y1, x2, y2] used throughout
drone/video_processor.py and drone/llm_processor.py. -/
structure Box where
  x1 : ℚ
  y1 : ℚ
  x2 : ℚ
  y2 : ℚ
deriving DecidableEq

/- Center coordinates of a box: (bbox[0] + bbox[2])/2 and (bbox[1] + bbox[3])/2. -/
def boxCenterX (b : Box) : ℚ := (b.x1 + b.x2) / 2

def boxCenterY (b : Box) : ℚ := (b.y1 + b.y2) / 2

/- Squared Euclidean distance between the two box centers. -/
def centerDistSq (b1 b2 : Box) : ℚ :=
  (boxCenterX b1 - boxCenterX b2) ^ 2 + (boxCenterY b1 - boxCenterY b2) ^ 2

/- Squared diagonal of the first box's own dimensions:
frame_width = abs(bbox1[2] - bbox1[0]), frame_height = abs(bbox1[3] - bbox1[1])
in VideoProcessor._calculate_box_distance. -/
def boxDiagSq (b : Box) : ℚ := |b.x2 - b.x1| ^ 2 + |b.y2 - b.y1| ^ 2

/- The condition VideoProcessor._calculate_box_distance(b1, b2) < 0.2, in
squared form: sqrt(d) / sqrt(n) < 1/5 iff 25 * d < n for d, n ≥ 0
(n = 0 gives inf or nan in NumPy, which also compares false). -/
def vpBoxClose (b1 b2 : Box) : Bool :=
  decide (25 * centerDistSq b1 b2 < boxDiagSq b1)

/- The real-valued distance returned by VideoProcessor._calculate_box_distance:
Euclidean distance of centers divided by sqrt(frame_width^2 + frame_height^2),
where both dimensions are taken from bbox1. -/
noncomputable def calculate_box_distance (bbox1 bbox2 : Box) : ℝ :=
  let c1x : ℝ := ((bbox1.x1 : ℝ) + (bbox1.x2 : ℝ)) / 2
  let c1y : ℝ := ((bbox1.y1 : ℝ) + (bbox1.y2 : ℝ)) / 2
  let c2x : ℝ := ((bbox2.x1 : ℝ) + (bbox2.x2 : ℝ)) / 2
  let c2y : ℝ := ((bbox2.y1 : ℝ) + (bbox2.y2 : ℝ)) / 2
  let fw : ℝ := |(bbox1.x2 : ℝ) - (bbox1.x1 : ℝ)|
  let fh : ℝ := |(bbox1.y2 : ℝ) - (bbox1.y1 : ℝ)|
  Real.sqrt ((c1x - c2x) ^ 2 + (c1y - c2y) ^ 2) / Real.sqrt (fw ^ 2 + fh ^ 2)

/- Spec-side reading of the same quantity, following the words of the claim:
the Euclidean distance between the centers of b1 and b2. -/
noncomputable def boxCenterDist (b1 b2 : Box) : ℝ :=
  Real.sqrt ((centerDistSq b1 b2 : ℝ))

/- Spec-side reading: the diagonal length of a box's own width and height. -/
noncomputable def boxDiagonal (b : Box) : ℝ :=
  Real.sqrt ((boxDiagSq b : ℝ))

/- A detected object, as produced by VideoProcessor._process_predictions:
the dict with keys class_name, confidence, bbox, class_id. -/
structure DetObj where
  class_name : String
  confidence : ℚ
  bbox : Box
  class_id : ℤ
deriving DecidableEq

def personStr : String := "person"

/- self.violence_classes = {1, 2, 3, 7, 9} in VideoProcessor. -/
def violence_classes : List ℤ := [1, 2, 3, 7, 9]

/- self.weapon_classes = {4, 5, 6} in VideoProcessor. -/
def weapon_classes : List ℤ := [4, 5, 6]

/- The 0.6 suspicion entries appended for one object obj: inside the loop of
VideoProcessor._analyze_violence, when obj is a person, one 0.6 entry per
other person detection (value-distinct, as Python dict inequality compares
the dict contents) whose box distance from obj is below 0.2. -/
def pairSuspicion (objects : List DetObj) (obj : DetObj) : List ℚ :=
  if obj.class_name = personStr then
    (objects.filter (fun o =>
      decide (o.class_name = personStr) && decide (o ≠ obj) &&
        vpBoxClose obj.bbox o.bbox)).map (fun _ => (3 : ℚ) / 5)
  else []

/- All scores appended while the loop of _analyze_violence visits obj, in
order: the confidence if obj's class id is a violence class, then the
confidence if it is a weapon class, then the person-pair suspicion entries. -/
def objScores (objects : List DetObj) (obj : DetObj) : List ℚ :=
  (if obj.class_id ∈ violence_classes then [obj.confidence] else []) ++
    (if obj.class_id ∈ weapon_classes then [obj.confidence] else []) ++
    pairSuspicion objects obj

/- The violence_scores list built by _analyze_violence over the whole loop. -/
def violence_scores (objects : List DetObj) : List ℚ :=
  objects.flatMap (objScores objects)

/- The has_weapons flag of _analyze_violence: set when some detection's
class id is in weapon_classes. -/
def has_weapons (objects : List DetObj) : Bool :=
  objects.any (fun o => decide (o.class_id ∈ weapon_classes))

/- Python max over a nonempty list, as a fold of the binary max. -/
def pythonListMax : List ℚ → Option ℚ
  | [] => none
  | h :: t => some (t.foldl max h)

/- VideoProcessor._analyze_violence: False on an empty object list, else
max(violence_scores) > violence_threshold or has_weapons when the scores
list is nonempty, and False when it is empty. -/
def analyze_violence (violence_threshold : ℚ) (objects : List DetObj) : Bool :=
  if objects.isEmpty then false
  else
    match pythonListMax (violence_scores objects) with
    | none => false
    | some m => decide (violence_threshold < m) || has_weapons objects

/- Spec-side collection of scores, grouped the way the claim words it:
confidences of violence-class detections, confidences of weapon-class
detections, and one fixed 0.6 entry per ordered pair of distinct person
detections at box distance below 0.2. -/
def personPairs (objects : List DetObj) : List (DetObj × DetObj) :=
  (objects.flatMap (fun p => objects.map (fun q => (p, q)))).filter
    (fun pq =>
      decide (pq.1.class_name = personStr) && decide (pq.2.class_name = personStr) &&
        decide (pq.2 ≠ pq.1) && vpBoxClose pq.1.bbox pq.2.bbox)

def spec_violence_scores (objects : List DetObj) : List ℚ :=
  ((objects.filter (fun o => decide (o.class_id ∈ violence_classes))).map DetObj.confidence) ++
    ((objects.filter (fun o => decide (o.class_id ∈ weapon_classes))).map DetObj.confidence) ++
    ((personPairs objects).map (fun _ => (3 : ℚ) / 5))

def spec_has_weapons (objects : List DetObj) : Bool :=
  objects.any (fun o => decide (o.class_id ∈ weapon_classes))

/- The violence decision as the claim describes it: false when the collected
scores list is empty, else max > threshold or weapons present. -/
def claimC1_decision (violence_threshold : ℚ) (objects : List DetObj) : Bool :=
  match pythonListMax (spec_violence_scores objects) with
  | none => false
  | some m => decide (violence_threshold < m) || spec_has_weapons objects

/- GemmaProcessor._calculate_box_distance in drone/llm_processor.py returns
the raw Euclidean distance between centers, with no normalization (its
docstring notwithstanding).  The comparison distance < 0.2 used by
_analyze_spatial_relationships, in squared form: sqrt d < 1/5 iff 25 d < 1. -/
def gemmaClose (b1 b2 : Box) : Bool :=
  decide (25 * centerDistSq b1 b2 < 1)

/- The ordered pairs (objects[i], objects[j]) with i < j visited by the
nested loops of GemmaProcessor._analyze_spatial_relationships. -/
def pairsAfter {α : Type} : List α → List (α × α)
  | [] => []
  | x :: xs => (xs.map (fun y => (x, y))) ++ pairsAfter xs

/- GemmaProcessor._analyze_spatial_relationships: one proximity narrative
line per pair of detections whose box distance is below 0.2; each line is
modelled by the pair of class names it cites. -/
def analyze_spatial_relationships (objects : List DetObj) : List (String × String) :=
  ((pairsAfter objects).filter (fun pq => gemmaClose pq.1.bbox pq.2.bbox)).map
    (fun pq => (pq.1.class_name, pq.2.class_name))

/- Spec-side predicate, following the claim's words: the normalized Euclidean
distance between box centers (centers taken in frame-normalized coordinates)
is below the 0.2 normalized threshold; in squared form. -/
def spec_normalized_close (frameW frameH : ℚ) (b1 b2 : Box) : Bool :=
  decide (25 * (((boxCenterX b1 - boxCenterX b2) / frameW) ^ 2 +
    ((boxCenterY b1 - boxCenterY b2) / frameH) ^ 2) < 1)

/- Terrain types, in the declaration order of the TerrainType enum in
drone/geospatial.py; Python dict comprehension preserves this order. -/
inductive TerrainType
  | urban
  | suburban
  | rural
  | forest
  | mountain
  | water
  | grassland
  | desert
deriving DecidableEq

/- Classification thresholds from GeospatialModule.__init__. -/
def ELEVATION_MEDIUM : ℚ := 500

def ELEVATION_MOUNTAIN : ℚ := 2500

def SLOPE_GENTLE : ℚ := 5

def SLOPE_MODERATE : ℚ := 15

def SLOPE_STEEP : ℚ := 30

/- The score accumulated for one terrain type by the three condition blocks
of GeospatialModule._classify_terrain, before the rural floor default. -/
def preScore (elevation slope : ℚ) (t : TerrainType) : ℚ :=
  (if elevation < ELEVATION_MEDIUM ∧ slope < SLOPE_GENTLE then
     (if t = TerrainType.urban then (4 : ℚ) / 5 else 0) +
       (if t = TerrainType.suburban then (2 : ℚ) / 5 else 0)
   else 0) +
  (if ELEVATION_MOUNTAIN < elevation ∨ SLOPE_STEEP < slope then
     (if t = TerrainType.mountain then (4 : ℚ) / 5 else 0)
   else 0) +
  (if elevation < ELEVATION_MEDIUM ∧ slope < SLOPE_MODERATE then
     (if t = TerrainType.suburban then (3 : ℚ) / 5 else 0) +
       (if t = TerrainType.rural then (2 : ℚ) / 5 else 0)
   else 0)

def allTerrainTypes : List TerrainType :=
  [TerrainType.urban, TerrainType.suburban, TerrainType.rural, TerrainType.forest,
   TerrainType.mountain, TerrainType.water, TerrainType.grassland, TerrainType.desert]

/- The floor-default guard: all(score < 0.4 for score in scores.values()). -/
def floorApplies (elevation slope : ℚ) : Bool :=
  allTerrainTypes.all (fun t => decide (preScore elevation slope t < (2 : ℚ) / 5))

/- The final score of one terrain type, including the rural floor default. -/
def terrainScore (elevation slope : ℚ) (t : TerrainType) : ℚ :=
  preScore elevation slope t +
    (if floorApplies elevation slope = true ∧ t = TerrainType.rural then (1 : ℚ) / 2 else 0)

/- Python max(scores.items(), key=lambda x: x[1])[0]: the first key of
maximal score in iteration order (later items replace only on a strictly
greater score). -/
def argmaxTerrain (f : TerrainType → ℚ) : TerrainType :=
  allTerrainTypes.foldl (fun best t => if f best < f t then t else best) TerrainType.urban

/- GeospatialModule._classify_terrain, restricted to the (terrain type,
confidence) pair it returns; the templated description string is omitted. -/
def classify_terrain (elevation slope : ℚ) : TerrainType × ℚ :=
  (argmaxTerrain (terrainScore elevation slope),
   terrainScore elevation slope (argmaxTerrain (terrainScore elevation slope)))

/- Outcome of one HTTP POST attempt at the event sink, as distinguished by
DataTransmitter.send_event: a response with some status, or a connection
error (aiohttp.ClientError). -/
inductive HttpAttempt
  | response (status : ℕ)
  | connectionError
deriving DecidableEq

/- The per-attempt success test of send_event: response.status == 200. -/
def attemptSucceeds : HttpAttempt → Bool
  | HttpAttempt.response s => s == 200
  | HttpAttempt.connectionError => false

/- What one run of the retry loop of send_event did: the returned boolean,
the sleep durations performed between attempts, and how many attempts were
made. -/
structure SendResult where
  success : Bool
  sleeps : List ℚ
  attempts : ℕ
deriving DecidableEq

def max_retries : ℕ := 3

def retry_delay : ℚ := 1

/- The retry loop of DataTransmitter.send_event: for attempt in
range(max_retries): on success return True; otherwise, when more attempts
remain (attempt < max_retries - 1), sleep retry_delay * (attempt + 1) and
continue; after the loop return False.  The first argument gives the
outcome of the i-th attempt if it is made; rem is the remaining fuel. -/
def sendEventAux (resp : ℕ → HttpAttempt) (delay : ℚ) : ℕ → ℕ → SendResult
  | 0, _ => ⟨false, [], 0⟩
  | rem + 1, i =>
    if attemptSucceeds (resp i) then ⟨true, [], 1⟩
    else if rem = 0 then ⟨false, [], 1⟩
    else
      let r := sendEventAux resp delay rem (i + 1)
      ⟨r.success, delay * ((i : ℚ) + 1) :: r.sleeps, r.attempts + 1⟩

def send_event (resp : ℕ → HttpAttempt) (delay : ℚ) : SendResult :=
  sendEventAux resp delay max_retries 0

/- Spec-side success criterion, following the spec's words: success = 2xx
status. -/
def spec_is2xx (s : ℕ) : Bool := decide (200 ≤ s) && decide (s < 300)

/- The attempt outcome stream of an endpoint that always answers 201. -/
def alwaysStatus201 : ℕ → HttpAttempt := fun _ => HttpAttempt.response 201

/- The methods defined by the VideoProcessor class in
drone/video_processor.py; Python attribute lookup on an instance searches
these. -/
def videoProcessorMethods : List String :=
  [r"__init__", r"start", r"_capture_frames", r"_process_frames",
   r"_preprocess_frame", r"_process_predictions", r"_analyze_violence",
   r"_calculate_box_distance", r"get_latest_result", r"stop", r"__del__"]

/- The attribute name DroneController.process_frame actually requests. -/
def get_latest_frame_attr : String := "get_latest_frame"

def attrErrorGetLatestFrame : String := "AttributeError: get_latest_frame"

def attrErrorNoneGeo : String := "AttributeError: NoneType"

/- A ProcessedFrame as seen by the controller: its detections and the
violence flag (the raw image and timestamp play no role in the dispatch). -/
structure PFrame where
  detections : List DetObj
  violence_detected : Bool
deriving DecidableEq

/- The fields of GeospatialData read by process_violence_event. -/
structure GeoSnap where
  latitude : ℚ
  longitude : ℚ
  altitude : ℚ
  heading : ℚ
  terrain_type : String
  land_use : String
deriving DecidableEq

/- The event record assembled by process_violence_event and handed to the
transmitter. -/
structure EventRecordM where
  detections : List DetObj
  location : GeoSnap
deriving DecidableEq

/- What one iteration of DroneController.process_frame does. -/
inductive StepOutcome
  | idle
  | noTrigger
  | assembled (ev : EventRecordM)
deriving DecidableEq

/- The state the controller step reads: the inference result queue and the
geospatial module's current data. -/
structure ControllerState where
  resultQueue : List PFrame
  geoData : Option GeoSnap
deriving DecidableEq

/- DroneController.process_frame followed by process_violence_event (from
drone/main.py).  The step first resolves the attribute get_latest_frame on
the video processor; since VideoProcessor defines get_latest_result but no
get_latest_frame, the lookup fails and the call raises AttributeError
before any frame is obtained.  The guarded branch embeds the dispatch the
surrounding code spells out: return when no frame is available, trigger
event assembly exactly on violence_detected, read the geospatial snapshot,
and hand the assembled record to the transmitter. -/
def process_frame (st : ControllerState) : Except String StepOutcome :=
  if videoProcessorMethods.contains get_latest_frame_attr then
    match st.resultQueue with
    | [] => Except.ok StepOutcome.idle
    | f :: _ =>
      if f.violence_detected then
        match st.geoData with
        | none => Except.error attrErrorNoneGeo
        | some g => Except.ok (StepOutcome.assembled ⟨f.detections, g⟩)
      else Except.ok StepOutcome.noTrigger
  else Except.error attrErrorGetLatestFrame

def FRAME_QUEUE_CAPACITY : ℕ := 10

/- One iteration of the queue interaction in VideoProcessor._capture_frames:
if not self.frame_queue.full(): self.frame_queue.put(...), else the frame is
dropped.  Queue(maxsize=10) is full exactly when it holds 10 items. -/
def framePush {α : Type} (q : List α) (x : α) : List α :=
  if q.length < FRAME_QUEUE_CAPACITY then q ++ [x] else q

/- Concrete detections used to evaluate the embedded code at specific
inputs. -/
def c4person1 : DetObj := ⟨personStr, 9 / 10, ⟨0, 0, 10, 10⟩, 0⟩

def c4person2 : DetObj := ⟨personStr, 9 / 10, ⟨1, 1, 11, 11⟩, 0⟩

def c4objects : List DetObj := [c4person1, c4person2]

def c3obj1 : DetObj := ⟨personStr, 9 / 10, ⟨0, 0, 10, 10⟩, 0⟩

def c3obj2 : DetObj := ⟨personStr, 9 / 10, ⟨10, 10, 20, 20⟩, 0⟩

def c7box1 : Box := ⟨-3 / 2, 0, 3 / 2, 4⟩

def c7box2 : Box := ⟨20, -2, 26, 6⟩

/- A fold of max over a list starts from its base or lands in the list. -/
lemma foldlMax_mem (t : List ℚ) (h : ℚ) : t.foldl max h = h ∨ t.foldl max h ∈ t := by
  induction t generalizing h with
  | nil => exact Or.inl rfl
  | cons a t ih =>
    rcases ih (max h a) with hcase | hcase
    · rcases max_choice h a with hm | hm
      · exact Or.inl (by rw [List.foldl_cons, hcase, hm])
      · exact Or.inr (by rw [List.foldl_cons, hcase, hm]; exact List.mem_cons_self a t)
    · exact Or.inr (List.mem_cons_of_mem a hcase)

/- The base value of a fold of max is bounded by the fold. -/
lemma base_le_foldlMax (t : List ℚ) (h : ℚ) : h ≤ t.foldl max h := by
  induction t generalizing h with
  | nil => exact le_refl h
  | cons a t ih => exact le_trans (le_max_left h a) (ih (max h a))

/- Every element considered by the fold of max is bounded by the fold. -/
lemma le_foldlMax (t : List ℚ) : ∀ h x : ℚ, (x = h ∨ x ∈ t) → x ≤ t.foldl max h := by
  induction t with
  | nil =>
    intro h x hx
    rcases hx with rfl | hx
    · exact le_refl x
    · cases hx
  | cons a t ih =>
    intro h x hx
    rw [List.foldl_cons]
    rcases hx with rfl | hx
    · exact le_trans (le_max_left x a) (base_le_foldlMax t (max x a))
    rcases List.mem_cons.mp hx with rfl | hx
    · exact le_trans (le_max_right h x) (base_le_foldlMax t (max h x))
    · exact ih (max h a) x (Or.inr hx)

/- Python max depends only on which values occur in the list. -/
lemma pythonListMax_congr (l₁ l₂ : List ℚ) (hmem : ∀ x, x ∈ l₁ ↔ x ∈ l₂) :
    pythonListMax l₁ = pythonListMax l₂ := by
  match l₁, l₂ with
  | [], [] => rfl
  | [], h₂ :: t₂ =>
    exact absurd ((hmem h₂).mpr (List.mem_cons_self h₂ t₂)) (List.not_mem_nil h₂)
  | h₁ :: t₁, [] =>
    exact absurd ((hmem h₁).mp (List.mem_cons_self h₁ t₁)) (List.not_mem_nil h₁)
  | h₁ :: t₁, h₂ :: t₂ =>
    have hm₁ : t₁.foldl max h₁ ∈ h₂ :: t₂ := by
      refine (hmem _).mp ?_
      rcases foldlMax_mem t₁ h₁ with hc | hc
      · rw [hc]; exact List.mem_cons_self h₁ t₁
      · exact List.mem_cons_of_mem h₁ hc
    have hm₂ : t₂.foldl max h₂ ∈ h₁ :: t₁ := by
      refine (hmem _).mpr ?_
      rcases foldlMax_mem t₂ h₂ with hc | hc
      · rw [hc]; exact List.mem_cons_self h₂ t₂
      · exact List.mem_cons_of_mem h₂ hc
    have h12 : t₁.foldl max h₁ ≤ t₂.foldl max h₂ :=
      le_foldlMax t₂ h₂ _ (List.mem_cons.mp hm₁)
    have h21 : t₂.foldl max h₂ ≤ t₁.foldl max h₁ :=
      le_foldlMax t₁ h₁ _ (List.mem_cons.mp hm₂)
    simp [pythonListMax, le_antisymm h12 h21]

/- Membership in a conditionally produced list. -/
lemma mem_ite_list {α : Type} {c : Prop} [Decidable c] (l : List α) (x : α) :
    x ∈ (if c then l else []) ↔ c ∧ x ∈ l := by
  by_cases h : c <;> simp [h]

/- Membership description of the scores list built by the code's loop. -/
lemma mem_violence_scores (objects : List DetObj) (x : ℚ) :
    x ∈ violence_scores objects ↔
      ((∃ o ∈ objects, o.class_id ∈ violence_classes ∧ x = o.confidence) ∨
       (∃ o ∈ objects, o.class_id ∈ weapon_classes ∧ x = o.confidence) ∨
       (x = 3 / 5 ∧ ∃ p ∈ objects, ∃ q ∈ objects,
         p.class_name = personStr ∧ q.class_name = personStr ∧ q ≠ p ∧
           vpBoxClose p.bbox q.bbox = true)) := by
  simp only [violence_scores, List.mem_flatMap, objScores, List.mem_append, pairSuspicion,
    mem_ite_list, List.mem_singleton, List.mem_map, List.mem_filter,
    Bool.and_eq_true, decide_eq_true_eq]
  constructor
  · rintro ⟨o, ho, (⟨hc, hx⟩ | ⟨hc, hx⟩) | ⟨hc, q, ⟨⟨hqmem, ⟨hqn, hne⟩, hclose⟩, hxq⟩⟩⟩
    · exact Or.inl ⟨o, ho, hc, hx⟩
    · exact Or.inr (Or.inl ⟨o, ho, hc, hx⟩)
    · exact Or.inr (Or.inr ⟨hxq.symm, o, ho, q, hqmem, hc, hqn, hne, hclose⟩)
  · rintro (⟨o, ho, hc, hx⟩ | ⟨o, ho, hc, hx⟩ | ⟨hx, p, hp, q, hq, hpn, hqn, hne, hclose⟩)
    · exact ⟨o, ho, Or.inl (Or.inl ⟨hc, hx⟩)⟩
    · exact ⟨o, ho, Or.inl (Or.inr ⟨hc, hx⟩)⟩
    · exact ⟨p, hp, Or.inr ⟨hpn, q, ⟨⟨hq, ⟨hqn, hne⟩, hclose⟩, hx.symm⟩⟩⟩

/- Membership description of the spec-side scores list. -/
lemma mem_spec_violence_scores (objects : List DetObj) (x : ℚ) :
    x ∈ spec_violence_scores objects ↔
      ((∃ o ∈ objects, o.class_id ∈ violence_classes ∧ x = o.confidence) ∨
       (∃ o ∈ objects, o.class_id ∈ weapon_classes ∧ x = o.confidence) ∨
       (x = 3 / 5 ∧ ∃ p ∈ objects, ∃ q ∈ objects,
         p.class_name = personStr ∧ q.class_name = personStr ∧ q ≠ p ∧
           vpBoxClose p.bbox q.bbox = true)) := by
  simp only [spec_violence_scores, List.mem_append, List.mem_map, List.mem_filter,
    personPairs, List.mem_flatMap, decide_eq_true_eq, Bool.and_eq_true]
  constructor
  · rintro ((⟨o, ⟨ho, hc⟩, hx⟩ | ⟨o, ⟨ho, hc⟩, hx⟩) | ⟨pq, ⟨⟨p, hp, q, hq, hpq'⟩, hcond⟩, hx⟩)
    · exact Or.inl ⟨o, ho, hc, hx.symm⟩
    · exact Or.inr (Or.inl ⟨o, ho, hc, hx.symm⟩)
    · subst hpq'
      exact Or.inr (Or.inr ⟨hx.symm, p, hp, q, hq,
        hcond.1.1.1, hcond.1.1.2, hcond.1.2, hcond.2⟩)
  · rintro (⟨o, ho, hc, hx⟩ | ⟨o, ho, hc, hx⟩ | ⟨hx, p, hp, q, hq, hpn, hqn, hne, hclose⟩)
    · exact Or.inl (Or.inl ⟨o, ⟨ho, hc⟩, hx.symm⟩)
    · exact Or.inl (Or.inr ⟨o, ⟨ho, hc⟩, hx.symm⟩)
    · exact Or.inr ⟨(p, q), ⟨⟨p, hp, q, hq, rfl⟩, ⟨⟨hpn, hqn⟩, hne⟩, hclose⟩, hx.symm⟩

/- The two score collections hold exactly the same values. -/
lemma violence_scores_mem_iff (objects : List DetObj) (x : ℚ) :
    x ∈ violence_scores objects ↔ x ∈ spec_violence_scores objects := by
  rw [mem_violence_scores, mem_spec_violence_scores]

/-- C1: for every detection set and threshold, the violence decision of
VideoProcessor._analyze_violence equals the spec's description: false when
the collected violence_scores list is empty, and otherwise
max(violence_scores) > violence_threshold OR has_weapons, where the scores
collect violence-class confidences, weapon-class confidences (weapon
detections also setting has_weapons), and a fixed 0.6 entry for every pair
of distinct person detections at normalized center distance below 0.2. -/
theorem analyze_violence_eq_claim (violence_threshold : ℚ) (objects : List DetObj) :
    analyze_violence violence_threshold objects =
      claimC1_decision violence_threshold objects := by
  have hmax : pythonListMax (violence_scores objects) =
      pythonListMax (spec_violence_scores objects) :=
    pythonListMax_congr _ _ (violence_scores_mem_iff objects)
  unfold analyze_violence claimC1_decision
  cases hobj : objects.isEmpty with
  | false =>
    rw [if_neg (by decide), hmax]
    rfl
  | true =>
    have hnil : objects = [] := List.isEmpty_iff.mp hobj
    subst hnil
    rfl
lemma argmaxTerrain_suburban (f : TerrainType → ℚ)
    (h1 : f TerrainType.urban < f TerrainType.suburban)
    (h2 : f TerrainType.rural ≤ f TerrainType.suburban)
    (h3 : f TerrainType.forest ≤ f TerrainType.suburban)
    (h4 : f TerrainType.mountain ≤ f TerrainType.suburban)
    (h5 : f TerrainType.water ≤ f TerrainType.suburban)
    (h6 : f TerrainType.grassland ≤ f TerrainType.suburban)
    (h7 : f TerrainType.desert ≤ f TerrainType.suburban) :
    argmaxTerrain f = TerrainType.suburban := by
  unfold argmaxTerrain allTerrainTypes
  simp only [List.foldl_cons, List.foldl_nil]
  rw [if_neg (lt_irrefl _), if_pos h1, if_neg (not_lt.mpr h2), if_neg (not_lt.mpr h3),
    if_neg (not_lt.mpr h4), if_neg (not_lt.mpr h5), if_neg (not_lt.mpr h6),
    if_neg (not_lt.mpr h7)]

lemma argmaxTerrain_mountain (f : TerrainType → ℚ)
    (h1 : f TerrainType.suburban ≤ f TerrainType.urban)
    (h2 : f TerrainType.rural ≤ f TerrainType.urban)
    (h3 : f TerrainType.forest ≤ f TerrainType.urban)
    (h4 : f TerrainType.urban < f TerrainType.mountain)
    (h5 : f TerrainType.water ≤ f TerrainType.mountain)
    (h6 : f TerrainType.grassland ≤ f TerrainType.mountain)
    (h7 : f TerrainType.desert ≤ f TerrainType.mountain) :
    argmaxTerrain f = TerrainType.mountain := by
  unfold argmaxTerrain allTerrainTypes
  simp only [List.foldl_cons, List.foldl_nil]
  rw [if_neg (lt_irrefl _), if_neg (not_lt.mpr h1), if_neg (not_lt.mpr h2),
    if_neg (not_lt.mpr h3), if_pos h4, if_neg (not_lt.mpr h5),
    if_neg (not_lt.mpr h6), if_neg (not_lt.mpr h7)]

lemma argmaxTerrain_rural (f : TerrainType → ℚ)
    (h1 : f TerrainType.suburban ≤ f TerrainType.urban)
    (h2 : f TerrainType.urban < f TerrainType.rural)
    (h3 : f TerrainType.forest ≤ f TerrainType.rural)
    (h4 : f TerrainType.mountain ≤ f TerrainType.rural)
    (h5 : f TerrainType.water ≤ f TerrainType.rural)
    (h6 : f TerrainType.grassland ≤ f TerrainType.rural)
    (h7 : f TerrainType.desert ≤ f TerrainType.rural) :
    argmaxTerrain f = TerrainType.rural := by
  unfold argmaxTerrain allTerrainTypes
  simp only [List.foldl_cons, List.foldl_nil]
  rw [if_neg (lt_irrefl _), if_neg (not_lt.mpr h1), if_pos h2, if_neg (not_lt.mpr h3),
    if_neg (not_lt.mpr h4), if_neg (not_lt.mpr h5), if_neg (not_lt.mpr h6),
    if_neg (not_lt.mpr h7)]

lemma floor_rep_A : floorApplies 10 (3 / 2) = false := by
  simp only [floorApplies, allTerrainTypes, List.all_cons, List.all_nil,
    preScore, ELEVATION_MEDIUM, SLOPE_GENTLE, ELEVATION_MOUNTAIN, SLOPE_STEEP, SLOPE_MODERATE]
  simp
  norm_num

lemma score_rep_A : ∀ t, terrainScore 10 (3 / 2) t =
    (match t with
     | TerrainType.urban => (4 : ℚ) / 5
     | TerrainType.suburban => 1
     | TerrainType.rural => (2 : ℚ) / 5
     | _ => 0) := by
  intro t
  simp only [terrainScore, floor_rep_A, preScore, ELEVATION_MEDIUM, SLOPE_GENTLE,
    ELEVATION_MOUNTAIN, SLOPE_STEEP, SLOPE_MODERATE]
  cases t <;> simp <;> norm_num

lemma classify_rep_A : classify_terrain 10 (3 / 2) = (TerrainType.suburban, 1) := by
  have harg : argmaxTerrain (terrainScore 10 (3 / 2)) = TerrainType.suburban := by
    apply argmaxTerrain_suburban <;> rw [score_rep_A, score_rep_A] <;> norm_num
  unfold classify_terrain
  rw [harg, score_rep_A]

lemma floor_rep_C : floorApplies 10 10 = false := by
  simp only [floorApplies, allTerrainTypes, List.all_cons, List.all_nil,
    preScore, ELEVATION_MEDIUM, SLOPE_GENTLE, ELEVATION_MOUNTAIN, SLOPE_STEEP, SLOPE_MODERATE]
  simp
  norm_num

lemma score_rep_C : ∀ t, terrainScore 10 10 t =
    (match t with
     | TerrainType.suburban => (3 : ℚ) / 5
     | TerrainType.rural => (2 : ℚ) / 5
     | _ => 0) := by
  intro t
  simp only [terrainScore, floor_rep_C, preScore, ELEVATION_MEDIUM, SLOPE_GENTLE,
    ELEVATION_MOUNTAIN, SLOPE_STEEP, SLOPE_MODERATE]
  cases t <;> simp <;> norm_num

lemma classify_rep_C : classify_terrain 10 10 = (TerrainType.suburban, 3 / 5) := by
  have harg : argmaxTerrain (terrainScore 10 10) = TerrainType.suburban := by
    apply argmaxTerrain_suburban <;> rw [score_rep_C, score_rep_C] <;> norm_num
  unfold classify_terrain
  rw [harg, score_rep_C]

lemma floor_rep_B : floorApplies 3000 10 = false := by
  simp only [floorApplies, allTerrainTypes, List.all_cons, List.all_nil,
    preScore, ELEVATION_MEDIUM, SLOPE_GENTLE, ELEVATION_MOUNTAIN, SLOPE_STEEP, SLOPE_MODERATE]
  simp
  norm_num

lemma score_rep_B : ∀ t, terrainScore 3000 10 t =
    (match t with
     | TerrainType.mountain => (4 : ℚ) / 5
     | _ => 0) := by
  intro t
  simp only [terrainScore, floor_rep_B, preScore, ELEVATION_MEDIUM, SLOPE_GENTLE,
    ELEVATION_MOUNTAIN, SLOPE_STEEP, SLOPE_MODERATE]
  cases t <;> simp <;> norm_num

lemma classify_rep_B : classify_terrain 3000 10 = (TerrainType.mountain, 4 / 5) := by
  have harg : argmaxTerrain (terrainScore 3000 10) = TerrainType.mountain := by
    apply argmaxTerrain_mountain <;> rw [score_rep_B, score_rep_B] <;> norm_num
  unfold classify_terrain
  rw [harg, score_rep_B]

lemma floor_rep_B2 : floorApplies 100 40 = false := by
  simp only [floorApplies, allTerrainTypes, List.all_cons, List.all_nil,
    preScore, ELEVATION_MEDIUM, SLOPE_GENTLE, ELEVATION_MOUNTAIN, SLOPE_STEEP, SLOPE_MODERATE]
  simp
  norm_num

lemma score_rep_B2 : ∀ t, terrainScore 100 40 t =
    (match t with
     | TerrainType.mountain => (4 : ℚ) / 5
     | _ => 0) := by
  intro t
  simp only [terrainScore, floor_rep_B2, preScore, ELEVATION_MEDIUM, SLOPE_GENTLE,
    ELEVATION_MOUNTAIN, SLOPE_STEEP, SLOPE_MODERATE]
  cases t <;> simp <;> norm_num

lemma classify_rep_B2 : classify_terrain 100 40 = (TerrainType.mountain, 4 / 5) := by
  have harg : argmaxTerrain (terrainScore 100 40) = TerrainType.mountain := by
    apply argmaxTerrain_mountain <;> rw [score_rep_B2, score_rep_B2] <;> norm_num
  unfold classify_terrain
  rw [harg, score_rep_B2]

lemma floor_rep_D : floorApplies 600 20 = true := by
  simp only [floorApplies, allTerrainTypes, List.all_cons, List.all_nil,
    preScore, ELEVATION_MEDIUM, SLOPE_GENTLE, ELEVATION_MOUNTAIN, SLOPE_STEEP, SLOPE_MODERATE]
  simp
  norm_num

lemma score_rep_D : ∀ t, terrainScore 600 20 t =
    (match t with
     | TerrainType.rural => (1 : ℚ) / 2
     | _ => 0) := by
  intro t
  simp only [terrainScore, floor_rep_D, preScore, ELEVATION_MEDIUM, SLOPE_GENTLE,
    ELEVATION_MOUNTAIN, SLOPE_STEEP, SLOPE_MODERATE]
  cases t <;> simp <;> norm_num

lemma classify_rep_D : classify_terrain 600 20 = (TerrainType.rural, 1 / 2) := by
  have harg : argmaxTerrain (terrainScore 600 20) = TerrainType.rural := by
    apply argmaxTerrain_rural <;> rw [score_rep_D, score_rep_D] <;> norm_num
  unfold classify_terrain
  rw [harg, score_rep_D]

lemma classify_terrain_congr (e s el sl : ℚ)
    (hpre : ∀ t, preScore e s t = preScore el sl t) :
    classify_terrain e s = classify_terrain el sl := by
  have hfn : preScore e s = preScore el sl := funext hpre
  have hts : terrainScore e s = terrainScore el sl := by
    funext t
    unfold terrainScore floorApplies
    rw [hfn]
  unfold classify_terrain
  rw [hts]

/-- C2 counterexample: at elevation 10 m and slope 1.5 degrees the
classifier does not return urban with confidence 0.8: the suburban score
accumulates 0.4 + 0.6 = 1.0, which outscores urban's 0.8. -/
theorem classify_terrain_urban_counterexample :
    (classify_terrain 10 (3 / 2)).1 ≠ TerrainType.urban ∧
      classify_terrain 10 (3 / 2) = (TerrainType.suburban, 1) := by
  refine ⟨?_, classify_rep_A⟩
  rw [classify_rep_A]
  simp

/-- C2 amended: elevation 10 m, slope 1.5 degrees gives suburban with
confidence 1.0; elevation 3000 m, slope 10 degrees gives mountain with
confidence 0.8, and the slope trigger alone (elevation 100 m, slope 40
degrees) also gives mountain with confidence 0.8. -/
theorem classify_terrain_scenarios :
    classify_terrain 10 (3 / 2) = (TerrainType.suburban, 1) ∧
      classify_terrain 3000 10 = (TerrainType.mountain, 4 / 5) ∧
      classify_terrain 100 40 = (TerrainType.mountain, 4 / 5) :=
  ⟨classify_rep_A, classify_rep_B, classify_rep_B2⟩

/-- C3: GemmaProcessor compares the raw pixel distance between centers with
0.2, not a normalized distance: for two person boxes with centers (5,5) and
(15,15) in a 100 by 100 frame, the frame-normalized center distance is
about 0.14 < 0.2, yet the code reports no proximity narrative. -/
theorem gemma_proximity_raw_pixel_divergence :
    analyze_spatial_relationships [c3obj1, c3obj2] = [] ∧
      spec_normalized_close 100 100 c3obj1.bbox c3obj2.bbox = true := by
  constructor
  · simp only [analyze_spatial_relationships, pairsAfter, c3obj1, c3obj2, List.map_cons,
      List.map_nil, List.append_nil, List.nil_append, List.filter]
    norm_num [gemmaClose, centerDistSq, boxCenterX, boxCenterY]
  · norm_num [spec_normalized_close, c3obj1, c3obj2, boxCenterX, boxCenterY]

/- The violence_scores list of the two concrete close person detections:
each ordered pair contributes one 0.6 suspicion entry. -/
lemma violence_scores_c4objects : violence_scores c4objects = [3 / 5, 3 / 5] := by
  norm_num [violence_scores, c4objects, objScores, pairSuspicion, c4person1, c4person2,
    personStr, violence_classes, weapon_classes, vpBoxClose, centerDistSq, boxCenterX,
    boxCenterY, boxDiagSq, List.flatMap_cons, List.flatMap_nil, List.filter,
    DetObj.mk.injEq, Box.mk.injEq]

lemma has_weapons_c4objects : has_weapons c4objects = false := by
  norm_num [has_weapons, c4objects, c4person1, c4person2, weapon_classes]

/-- C4 counterexample: for two close person detections and no other
triggering object, at violence_threshold = 0.6 the claim demands a true
decision, but max(violence_scores) = 0.6 is not strictly greater than 0.6
and the decision is false. -/
theorem suspicion_threshold_counterexample :
    analyze_violence (3 / 5) c4objects = false ∧
      (3 : ℚ) / 5 ∈ violence_scores c4objects ∧
      vpBoxClose c4person1.bbox c4person2.bbox = true ∧
      c4person1 ≠ c4person2 ∧
      (∀ o ∈ c4objects, o.class_id ∉ violence_classes ∧ o.class_id ∉ weapon_classes) := by
  refine ⟨?_, ?_, ?_, ?_, ?_⟩
  · rw [analyze_violence, violence_scores_c4objects, if_neg (by simp [c4objects])]
    simp only [pythonListMax, List.foldl_cons, List.foldl_nil, has_weapons_c4objects, max_self]
    norm_num
  · rw [violence_scores_c4objects]
    simp
  · norm_num [vpBoxClose, c4person1, c4person2, centerDistSq, boxCenterX, boxCenterY,
      boxDiagSq]
  · simp only [c4person1, c4person2, ne_eq, DetObj.mk.injEq, Box.mk.injEq]
    norm_num
  · simp [c4objects, c4person1, c4person2, violence_classes, weapon_classes]

/-- C4 amended: for every detection set holding two distinct person
detections at box distance below 0.2 and no object of a violence or weapon
class, the suspicion score 0.6 is appended to violence_scores, and whenever
violence_threshold < 0.6 (strictly) the decision is true. -/
theorem suspicion_pair_triggers (thr : ℚ) (objects : List DetObj) (p1 p2 : DetObj)
    (hp1 : p1 ∈ objects) (hp2 : p2 ∈ objects)
    (hn1 : p1.class_name = personStr) (hn2 : p2.class_name = personStr)
    (hne : p2 ≠ p1) (hclose : vpBoxClose p1.bbox p2.bbox = true)
    (_hno : ∀ o ∈ objects, o.class_id ∉ violence_classes ∧ o.class_id ∉ weapon_classes) :
    (3 : ℚ) / 5 ∈ violence_scores objects ∧
      (thr < 3 / 5 → analyze_violence thr objects = true) := by
  have hmem : (3 : ℚ) / 5 ∈ violence_scores objects :=
    (mem_violence_scores objects _).mpr
      (Or.inr (Or.inr ⟨rfl, p1, hp1, p2, hp2, hn1, hn2, hne, hclose⟩))
  refine ⟨hmem, fun hthr => ?_⟩
  unfold analyze_violence
  have hnil : objects ≠ [] := List.ne_nil_of_mem hp1
  rw [if_neg (by simpa [List.isEmpty_iff] using hnil)]
  cases hvs : violence_scores objects with
  | nil => rw [hvs] at hmem; cases hmem
  | cons h t =>
    have hle : (3 : ℚ) / 5 ≤ t.foldl max h := by
      apply le_foldlMax
      rw [hvs] at hmem
      exact List.mem_cons.mp hmem
    have hlt : thr < t.foldl max h := lt_of_lt_of_le hthr hle
    simp [pythonListMax, hlt]

/-- C4 witness: the amended statement evaluated at two concrete close
person detections and the threshold 1/2. -/
theorem suspicion_pair_triggers_witness :
    ((3 : ℚ) / 5 ∈ violence_scores c4objects ∧
      ((1 : ℚ) / 2 < 3 / 5 → analyze_violence (1 / 2) c4objects = true)) ∧
      analyze_violence (1 / 2) c4objects = true := by
  have h := suspicion_pair_triggers (1 / 2) c4objects c4person1 c4person2
    (by simp [c4objects]) (by simp [c4objects]) rfl rfl
    (by simp only [c4person1, c4person2, ne_eq, DetObj.mk.injEq, Box.mk.injEq]; norm_num)
    (by norm_num [vpBoxClose, c4person1, c4person2, centerDistSq, boxCenterX, boxCenterY,
      boxDiagSq])
    (by simp [c4objects, c4person1, c4person2, violence_classes, weapon_classes])
  exact ⟨h, h.2 (by norm_num)⟩

/-- C8: every invocation of DroneController.process_frame fails with
AttributeError, because it requests the attribute get_latest_frame while
VideoProcessor defines get_latest_result; the violence dispatch and event
assembly are never reached. -/
theorem process_frame_attribute_error (st : ControllerState) :
    process_frame st = Except.error attrErrorGetLatestFrame := by
  unfold process_frame
  rw [if_neg (by decide : ¬(videoProcessorMethods.contains get_latest_frame_attr = true))]

lemma foldl_framePush_eq {α : Type} :
    ∀ (l q : List α), List.foldl framePush q l = q ++ l.take (FRAME_QUEUE_CAPACITY - q.length) := by
  intro l
  induction l with
  | nil => intro q; simp
  | cons x xs ih =>
    intro q
    rw [List.foldl_cons]
    by_cases h : q.length < FRAME_QUEUE_CAPACITY
    · have hpush : framePush q x = q ++ [x] := by unfold framePush; rw [if_pos h]
      rw [hpush, ih]
      have hsub : FRAME_QUEUE_CAPACITY - q.length =
          (FRAME_QUEUE_CAPACITY - (q ++ [x]).length) + 1 := by
        simp only [List.length_append, List.length_singleton]
        omega
      rw [hsub, List.take_succ_cons]
      simp
    · have hpush : framePush q x = q := by unfold framePush; rw [if_neg h]
      rw [hpush, ih]
      have hz : FRAME_QUEUE_CAPACITY - q.length = 0 := by omega
      rw [hz]
      simp

/-- C6: pushing K+1 items into the empty capacity-K frame queue (K = 10)
retains exactly the first K items in oldest-first order and drops the
newest; one capture-loop push never exceeds the capacity bound and never
evicts an already-queued older frame. -/
theorem frame_queue_backpressure :
    (∀ (α : Type) (l : List α), l.length = FRAME_QUEUE_CAPACITY + 1 →
        List.foldl framePush [] l = l.take FRAME_QUEUE_CAPACITY ∧
          (List.foldl framePush ([] : List α) l).length = FRAME_QUEUE_CAPACITY ∧
          List.foldl framePush [] l = l.dropLast) ∧
    (∀ (α : Type) (q : List α) (x : α), q.length ≤ FRAME_QUEUE_CAPACITY →
        (framePush q x).length ≤ FRAME_QUEUE_CAPACITY ∧
          (framePush q x).take q.length = q) := by
  constructor
  · intro α l hl
    have he : List.foldl framePush ([] : List α) l = l.take FRAME_QUEUE_CAPACITY := by
      rw [foldl_framePush_eq]
      simp
    refine ⟨he, ?_, ?_⟩
    · rw [he, List.length_take, hl]
      simp
    · rw [he, List.dropLast_eq_take, hl]
      simp
  · intro α q x hq
    by_cases h : q.length < FRAME_QUEUE_CAPACITY
    · have hpush : framePush q x = q ++ [x] := by unfold framePush; rw [if_pos h]
      rw [hpush]
      constructor
      · simp only [List.length_append, List.length_singleton]
        omega
      · exact List.take_left q [x]
    · have hpush : framePush q x = q := by unfold framePush; rw [if_neg h]
      rw [hpush]
      exact ⟨hq, List.take_length q⟩

/-- C6 witness: the overflow property evaluated at eleven pushed items, and
the single-push invariants at a full queue of ten. -/
theorem frame_queue_backpressure_witness :
    (List.foldl framePush ([] : List ℕ) (List.range 11) =
        (List.range 11).take FRAME_QUEUE_CAPACITY ∧
      (List.foldl framePush ([] : List ℕ) (List.range 11)).length = FRAME_QUEUE_CAPACITY ∧
      List.foldl framePush ([] : List ℕ) (List.range 11) = (List.range 11).dropLast) ∧
    ((framePush (List.range 10) 99).length ≤ FRAME_QUEUE_CAPACITY ∧
      (framePush (List.range 10) 99).take (List.range 10).length = List.range 10) :=
  ⟨frame_queue_backpressure.1 ℕ (List.range 11) (by simp [FRAME_QUEUE_CAPACITY]),
   frame_queue_backpressure.2 ℕ (List.range 10) 99 (by simp [FRAME_QUEUE_CAPACITY])⟩

/-- C5 amended: DataTransmitter.send_event makes at most 3 attempts, sleeps
retry_delay * attempt_number seconds after each failed non-final attempt,
returns success exactly when some attempt receives status 200 (not any
2xx), and reports failure without raising after exhausting all attempts. -/
theorem send_event_retry_policy (resp : ℕ → HttpAttempt) (delay : ℚ) :
    (send_event resp delay).attempts ≤ 3 ∧
    ((send_event resp delay).success = true ↔
      (attemptSucceeds (resp 0) = true ∨ attemptSucceeds (resp 1) = true ∨
        attemptSucceeds (resp 2) = true)) ∧
    (send_event resp delay).sleeps =
      (List.range ((send_event resp delay).attempts - 1)).map
        (fun j => delay * ((j : ℚ) + 1)) := by
  cases h0 : attemptSucceeds (resp 0) <;> cases h1 : attemptSucceeds (resp 1) <;>
    cases h2 : attemptSucceeds (resp 2) <;>
    simp [send_event, sendEventAux, max_retries, h0, h1, h2, List.range_succ]

/-- C5 counterexample: an endpoint that always answers 201 (a 2xx status)
still makes send_event report failure, because the code tests
response.status == 200 rather than the 2xx range. -/
theorem send_event_2xx_counterexample :
    (send_event alwaysStatus201 retry_delay).success = false ∧ spec_is2xx 201 = true := by
  constructor
  · simp [send_event, sendEventAux, max_retries, alwaysStatus201, attemptSucceeds]
  · simp [spec_is2xx]

/- The distance returned by the video processor as a quotient of the center
distance by the first box's diagonal. -/
lemma calculate_box_distance_eq (b1 b2 : Box) :
    calculate_box_distance b1 b2 = boxCenterDist b1 b2 / boxDiagonal b1 := by
  unfold calculate_box_distance boxCenterDist boxDiagonal
  dsimp only
  have ha : (((b1.x1 : ℝ) + b1.x2) / 2 - ((b2.x1 : ℝ) + b2.x2) / 2) ^ 2 +
      (((b1.y1 : ℝ) + b1.y2) / 2 - ((b2.y1 : ℝ) + b2.y2) / 2) ^ 2 =
      ((centerDistSq b1 b2 : ℚ) : ℝ) := by
    push_cast [centerDistSq, boxCenterX, boxCenterY]
    ring
  have hb : |(b1.x2 : ℝ) - b1.x1| ^ 2 + |(b1.y2 : ℝ) - b1.y1| ^ 2 =
      ((boxDiagSq b1 : ℚ) : ℝ) := by
    push_cast [boxDiagSq]
    ring
  rw [ha, hb]

lemma centerDistSq_nonneg (b1 b2 : Box) : 0 ≤ centerDistSq b1 b2 := by
  unfold centerDistSq
  positivity

lemma boxDiagSq_nonneg (b : Box) : 0 ≤ boxDiagSq b := by
  unfold boxDiagSq
  positivity

/- The squared-form closeness test used in the violence heuristic agrees
with the real-valued distance whenever the first box is nondegenerate. -/
lemma vpBoxClose_iff_distance_lt (b1 b2 : Box) (h : boxDiagSq b1 ≠ 0) :
    vpBoxClose b1 b2 = true ↔ calculate_box_distance b1 b2 < 1 / 5 := by
  have hD : (0 : ℝ) ≤ ((centerDistSq b1 b2 : ℚ) : ℝ) := by
    exact_mod_cast centerDistSq_nonneg b1 b2
  have hN : (0 : ℝ) < ((boxDiagSq b1 : ℚ) : ℝ) := by
    exact_mod_cast lt_of_le_of_ne (boxDiagSq_nonneg b1) (Ne.symm h)
  rw [calculate_box_distance_eq]
  unfold boxCenterDist boxDiagonal vpBoxClose
  rw [decide_eq_true_eq, div_lt_iff₀ (Real.sqrt_pos.mpr hN)]
  have h5 : (1 : ℝ) / 5 * Real.sqrt ((boxDiagSq b1 : ℚ) : ℝ) =
      Real.sqrt (((boxDiagSq b1 : ℚ) : ℝ) / 25) := by
    rw [Real.sqrt_div' _ (by norm_num : (0:ℝ) ≤ 25),
      show (25 : ℝ) = 5 ^ 2 by norm_num, Real.sqrt_sq (by norm_num : (0:ℝ) ≤ 5)]
    ring
  rw [h5, Real.sqrt_lt_sqrt_iff hD]
  constructor
  · intro hq
    have hr : (25 : ℝ) * ((centerDistSq b1 b2 : ℚ) : ℝ) < ((boxDiagSq b1 : ℚ) : ℝ) := by
      exact_mod_cast hq
    linarith
  · intro hr
    have hr2 : (25 : ℝ) * ((centerDistSq b1 b2 : ℚ) : ℝ) < ((boxDiagSq b1 : ℚ) : ℝ) := by
      linarith
    exact_mod_cast hr2

/-- C7: VideoProcessor._calculate_box_distance returns the Euclidean
distance between the two box centers divided by the diagonal length of the
first box's own width and height, and is consequently asymmetric: for a
3-by-4 box and a 6-by-8 box whose centers lie 23 pixels apart, the two
argument orders give 23/5 and 23/10. -/
theorem box_distance_first_box_normalizer :
    (∀ b1 b2 : Box, calculate_box_distance b1 b2 = boxCenterDist b1 b2 / boxDiagonal b1) ∧
      calculate_box_distance c7box1 c7box2 ≠ calculate_box_distance c7box2 c7box1 := by
  constructor
  · exact calculate_box_distance_eq
  · have h1 : calculate_box_distance c7box1 c7box2 = 23 / 5 := by
      have hn : calculate_box_distance c7box1 c7box2 = Real.sqrt 529 / Real.sqrt 25 := by
        simp only [calculate_box_distance, c7box1, c7box2]
        norm_num
      rw [hn, show (529 : ℝ) = 23 ^ 2 by norm_num, show (25 : ℝ) = 5 ^ 2 by norm_num,
        Real.sqrt_sq (by norm_num : (0:ℝ) ≤ 23), Real.sqrt_sq (by norm_num : (0:ℝ) ≤ 5)]
    have h2 : calculate_box_distance c7box2 c7box1 = 23 / 10 := by
      have hn : calculate_box_distance c7box2 c7box1 = Real.sqrt 529 / Real.sqrt 100 := by
        simp only [calculate_box_distance, c7box1, c7box2]
        norm_num
      rw [hn, show (529 : ℝ) = 23 ^ 2 by norm_num, show (100 : ℝ) = 10 ^ 2 by norm_num,
        Real.sqrt_sq (by norm_num : (0:ℝ) ≤ 23), Real.sqrt_sq (by norm_num : (0:ℝ) ≤ 10)]
    rw [h1, h2]
    norm_num

/-- C10: for every elevation and slope, the terrain classifier returns a
terrain type among suburban, mountain and rural with confidence at least
0.5; in particular it never returns urban, since any input crediting urban
0.8 also credits suburban 0.4 + 0.6 = 1.0. -/
theorem terrain_classifier_range (e s : ℚ) :
    ((classify_terrain e s).1 = TerrainType.suburban ∨
      (classify_terrain e s).1 = TerrainType.mountain ∨
      (classify_terrain e s).1 = TerrainType.rural) ∧
      (1 : ℚ) / 2 ≤ (classify_terrain e s).2 := by
  by_cases hC : e < ELEVATION_MEDIUM ∧ s < SLOPE_MODERATE
  · have hB : ¬(ELEVATION_MOUNTAIN < e ∨ SLOPE_STEEP < s) := by
      rcases hC with ⟨hC1, hC2⟩
      unfold ELEVATION_MEDIUM at hC1
      unfold SLOPE_MODERATE at hC2
      unfold ELEVATION_MOUNTAIN SLOPE_STEEP
      push_neg
      constructor <;> linarith
    by_cases hA : s < SLOPE_GENTLE
    · have hpre : ∀ t, preScore e s t = preScore 10 (3 / 2) t := by
        intro t
        unfold preScore
        rw [if_pos ⟨hC.1, hA⟩, if_neg hB, if_pos hC]
        norm_num [ELEVATION_MEDIUM, SLOPE_GENTLE, ELEVATION_MOUNTAIN, SLOPE_STEEP,
          SLOPE_MODERATE]
      rw [classify_terrain_congr e s 10 (3 / 2) hpre, classify_rep_A]
      refine ⟨Or.inl rfl, ?_⟩
      norm_num
    · have hA' : ¬(e < ELEVATION_MEDIUM ∧ s < SLOPE_GENTLE) := fun h => hA h.2
      have hpre : ∀ t, preScore e s t = preScore 10 10 t := by
        intro t
        unfold preScore
        rw [if_neg hA', if_neg hB, if_pos hC]
        norm_num [ELEVATION_MEDIUM, SLOPE_GENTLE, ELEVATION_MOUNTAIN, SLOPE_STEEP,
          SLOPE_MODERATE]
      rw [classify_terrain_congr e s 10 10 hpre, classify_rep_C]
      refine ⟨Or.inl rfl, ?_⟩
      norm_num
  · have hA' : ¬(e < ELEVATION_MEDIUM ∧ s < SLOPE_GENTLE) := by
      intro h
      apply hC
      refine ⟨h.1, ?_⟩
      have h2 := h.2
      unfold SLOPE_GENTLE at h2
      unfold SLOPE_MODERATE
      linarith
    by_cases hB : ELEVATION_MOUNTAIN < e ∨ SLOPE_STEEP < s
    · have hpre : ∀ t, preScore e s t = preScore 3000 10 t := by
        intro t
        unfold preScore
        rw [if_neg hA', if_pos hB, if_neg hC]
        norm_num [ELEVATION_MEDIUM, SLOPE_GENTLE, ELEVATION_MOUNTAIN, SLOPE_STEEP,
          SLOPE_MODERATE]
      rw [classify_terrain_congr e s 3000 10 hpre, classify_rep_B]
      refine ⟨Or.inr (Or.inl rfl), ?_⟩
      norm_num
    · have hpre : ∀ t, preScore e s t = preScore 600 20 t := by
        intro t
        unfold preScore
        rw [if_neg hA', if_neg hB, if_neg hC]
        norm_num [ELEVATION_MEDIUM, SLOPE_GENTLE, ELEVATION_MOUNTAIN, SLOPE_STEEP,
          SLOPE_MODERATE]
      rw [classify_terrain_congr e s 600 20 hpre, classify_rep_D]
      refine ⟨Or.inr (Or.inr rfl), ?_⟩
      norm_num
